import Mathlib

/-!
Verification of the cozo Python client helpers.

The repository ships three near-identical copies of the client-side helper
library, plus a test script with its own client class:

  * "cozopy/cozo.py"          — modelled in namespace `cozo`
  * "cozopy/cozo/__init__.py" — modelled in namespace `cozoInit`
  * "python/cozo_helper.py"   — modelled in namespace `cozoHelper`
  * "cozopy/cozo/test.py"     — its CozoDb class modelled in namespace `cozoTest`

Python values that flow through these helpers (JSON-shaped data) are embedded
as the inductive type `PyVal`.  Python dicts are ordered key/value lists, as
dict literals and later key assignments preserve insertion order.  The classes
whose instances capture a name through attribute access (TripleClass,
RuleClass, OpClass, PredicateClass, AggrClass) are embedded as structures whose
fields are the instance attributes set in "__init__", with one Lean function
per Python method; "__getattr__" is `getattr`, "__call__" is `call`.  Raising
an exception is embedded as `Except.error` with the message from the source.

The native engine behind CozoDbPy is not part of the Python sources; the
client methods serialize a request with "json.dumps", hand the string to the
engine, and parse the reply with "json.loads".  The serialize/parse round trip
is abstracted away: the engine entry points appear as parameters of type
`PyVal → PyVal` acting directly on the parsed values.
-/

/-- Embedding of the JSON-shaped Python values handled by the client code. -/
inductive PyVal where
  | none : PyVal
  | bool : Bool → PyVal
  | int : Int → PyVal
  | str : String → PyVal
  | list : List PyVal → PyVal
  | dict : List (String × PyVal) → PyVal

/-- Python truthiness for the embedded values: None, False, 0, "", and empty
containers are falsy, everything else is truthy. -/
def PyVal.truthy : PyVal → Bool
  | .none => false
  | .bool b => b
  | .int n => n != 0
  | .str s => s != ""
  | .list xs => !xs.isEmpty
  | .dict kvs => !kvs.isEmpty

/-- Value stored under key k of a dict, if any (first occurrence). -/
def PyVal.lookup (v : PyVal) (k : String) : Option PyVal :=
  match v with
  | .dict kvs => (kvs.find? (fun p => p.fst == k)).map Prod.snd
  | _ => Option.none

/-- Whether a dict carries the key k. -/
def PyVal.hasKey (v : PyVal) (k : String) : Bool :=
  match v with
  | .dict kvs => kvs.any (fun p => p.fst == k)
  | _ => false

/-- Keys of a dict, in insertion order. -/
def PyVal.keys : PyVal → List String
  | .dict kvs => kvs.map Prod.fst
  | _ => []

/-- TripleClass, identical in "cozopy/cozo.py", "cozopy/cozo/__init__.py" and
"python/cozo_helper.py".  Its only instance attribute is "_attr_name". -/
structure TripleClass where
  _attr_name : Option String

/-- TripleClass.__getattr__: the first accessed name starts the attribute
name, later accesses extend it with a dot separator. -/
def TripleClass.getattr (self : TripleClass) (name : String) : TripleClass :=
  match self._attr_name with
  | Option.none => ⟨some name⟩
  | some a => ⟨some (a ++ "." ++ name)⟩

/-- TripleClass.__call__: returns the bare 3-element array, or raises when no
attribute name was set. -/
def TripleClass.call (self : TripleClass) (entity value : PyVal) : Except String PyVal :=
  match self._attr_name with
  | Option.none => Except.error "you need to set the triple attribute first"
  | some a => Except.ok (PyVal.list [entity, PyVal.str a, value])

/-- Module-level singleton T = TripleClass(None). -/
def T : TripleClass := ⟨Option.none⟩

/-- Chain of attribute accesses on a TripleClass instance. -/
def TripleClass.getattrChain (self : TripleClass) (names : List String) : TripleClass :=
  names.foldl TripleClass.getattr self

/-- RuleClass, identical in "cozopy/cozo.py", "cozopy/cozo/__init__.py" and
"python/cozo_helper.py".  Instance attributes "_rule_name" and "_at" (the
latter initialised to None). -/
structure RuleClass where
  _rule_name : Option String
  _at : PyVal

/-- Result of RuleClass.__getattr__: a fresh instance, the "at" closure bound
to the same instance, or an exception. -/
inductive RuleGetattr where
  | new : RuleClass → RuleGetattr
  | atClosure : RuleGetattr
  | err : String → RuleGetattr

/-- RuleClass.__getattr__: with no rule name set, any accessed name builds a
fresh instance carrying that name (and "_at" = None, set by "__init__");
otherwise only "at" is allowed and yields the closure that mutates "_at". -/
def RuleClass.getattr (self : RuleClass) (name : String) : RuleGetattr :=
  match self._rule_name with
  | Option.none => RuleGetattr.new ⟨some name, PyVal.none⟩
  | some _ =>
      if name = "at" then RuleGetattr.atClosure
      else RuleGetattr.err "cannot nest rule name"

/-- Body of the "at" closure: sets "self._at" to the given time and returns
the same (mutated) instance. -/
def RuleClass.atCall (self : RuleClass) (time : PyVal) : RuleClass :=
  { self with _at := time }

/-- RuleClass.__call__: builds the rule mapping; the "at" entry is added only
when the stored "_at" is truthy (the Python test is "if self._at:"). -/
def RuleClass.call (self : RuleClass) (args : List PyVal) : Except String PyVal :=
  match self._rule_name with
  | Option.none => Except.error "you need to set the rule name first"
  | some n =>
      Except.ok (PyVal.dict (
        [("rule", PyVal.str n), ("args", PyVal.list args)] ++
        (if (self._at).truthy then [("at", self._at)] else [])))

/-- Module-level singleton R = RuleClass(None). -/
def R : RuleClass := ⟨Option.none, PyVal.none⟩

/-- Module-level singleton Q = RuleClass("?"). -/
def Q : RuleClass := ⟨some "?", PyVal.none⟩

/-- Operations performed on the shared module-level Q instance: invoking the
"at" closure, or calling the instance to build a rule mapping. -/
inductive QOp where
  | atOp : PyVal → QOp
  | callOp : List PyVal → QOp

/-- Whether an operation on the shared Q instance is a plain call, one that
never invokes the "at" closure. -/
def QOp.isCall : QOp → Bool
  | QOp.atOp _ => false
  | QOp.callOp _ => true

/-- State of the shared Q instance after a sequence of operations: the "at"
closure mutates "_at"; "__call__" reads the state and leaves it unchanged. -/
def RuleClass.applyOps (self : RuleClass) (ops : List QOp) : RuleClass :=
  ops.foldl (fun s op =>
    match op with
    | QOp.atOp t => s.atCall t
    | QOp.callOp _ => s) self

namespace cozo

/-- Members of the Typing enum of "cozopy/cozo.py", as (member name, member
value) pairs in declaration order.  Note the member on line 31 of that file is
"name", not "keyword". -/
def Typing : List (String × String) :=
  [("ref", "ref"), ("component", "component"), ("bool", "bool"), ("int", "int"),
   ("float", "float"), ("string", "string"), ("name", "name"), ("uuid", "uuid"),
   ("timestamp", "timestamp"), ("bytes", "bytes"), ("list", "list")]

/-- Members of the Cardinality enum. -/
def Cardinality : List (String × String) :=
  [("one", "one"), ("many", "many")]

/-- Members of the Indexing enum. -/
def Indexing : List (String × String) :=
  [("none", "none"), ("indexed", "indexed"), ("unique", "unique"), ("identity", "identity")]

/-- Attribute builder of "cozopy/cozo.py": dict with keys "name", "type",
"cardinality", "index", "history", plus "id" when the id argument is not
None. -/
def Attribute (name typing id cardinality index history : PyVal) : PyVal :=
  PyVal.dict (
    [("name", name), ("type", typing), ("cardinality", cardinality),
     ("index", index), ("history", history)] ++
    (match id with
     | PyVal.none => []
     | _ => [("id", id)]))

/-- PutAttr wraps an Attribute under "put".  The Python defaults (id = None,
cardinality = Cardinality.one, index = Indexing.none, history = False) are
passed explicitly here. -/
def PutAttr (name typing id cardinality index history : PyVal) : PyVal :=
  PyVal.dict [("put", Attribute name typing id cardinality index history)]

/-- RetractAttr wraps an Attribute under "retract". -/
def RetractAttr (name typing id cardinality index history : PyVal) : PyVal :=
  PyVal.dict [("retract", Attribute name typing id cardinality index history)]

/-- Put wraps an entity spec under "put". -/
def Put (d : PyVal) : PyVal := PyVal.dict [("put", d)]

/-- Retract wraps an entity spec under "retract". -/
def Retract (d : PyVal) : PyVal := PyVal.dict [("retract", d)]

/-- Pull builds the output projection spec; the Python parameter named
"variable" is a reserved word in Lean and appears here as "var". -/
def Pull (var spec : PyVal) : PyVal :=
  PyVal.dict [("pull", var), ("spec", spec)]

/-- OpClass of "cozopy/cozo.py"; its instance attribute is "_op_name". -/
structure OpClass where
  _op_name : Option String

/-- OpClass.__call__: builds the operation mapping tagged "op", or raises when
no op name is set. -/
def OpClass.call (self : OpClass) (args : List PyVal) : Except String PyVal :=
  match self._op_name with
  | Option.none => Except.error "you need to set the op name first"
  | some n => Except.ok (PyVal.dict [("op", PyVal.str n), ("args", PyVal.list args)])

/-- Module-level operation builder instances of "cozopy/cozo.py". -/
def Gt : OpClass := ⟨some "Gt"⟩

def Lt : OpClass := ⟨some "Lt"⟩

def Ge : OpClass := ⟨some "Ge"⟩

def Le : OpClass := ⟨some "Le"⟩

def Eq : OpClass := ⟨some "Eq"⟩

def Neq : OpClass := ⟨some "Neq"⟩

def Add : OpClass := ⟨some "Add"⟩

def Sub : OpClass := ⟨some "Sub"⟩

def Mul : OpClass := ⟨some "Mul"⟩

def Div : OpClass := ⟨some "Div"⟩

def StrCat : OpClass := ⟨some "StrCat"⟩

/-- AggrClass of "cozopy/cozo.py"; its instance attribute is "_aggr_name". -/
structure AggrClass where
  _aggr_name : Option String

/-- AggrClass.__call__: builds the aggregate mapping, or raises when no
aggregate name is set. -/
def AggrClass.call (self : AggrClass) (symb : PyVal) : Except String PyVal :=
  match self._aggr_name with
  | Option.none => Except.error "you need to set the predicate name first"
  | some n => Except.ok (PyVal.dict [("aggr", PyVal.str n), ("symb", symb)])

/-- Module-level aggregate builder instances of "cozopy/cozo.py". -/
def Count : AggrClass := ⟨some "Count"⟩

def Min : AggrClass := ⟨some "Min"⟩

def Max : AggrClass := ⟨some "Max"⟩

/-- Const term constructor, identical in "cozopy/cozo.py" and
"cozopy/cozo/__init__.py" (also present in "python/cozo_helper.py"). -/
def Const (item : PyVal) : PyVal := PyVal.dict [("const", item)]

/-- Conj term constructor: the starred Python argument tuple serializes as an
array. -/
def Conj (items : List PyVal) : PyVal := PyVal.dict [("conj", PyVal.list items)]

/-- Disj term constructor. -/
def Disj (items : List PyVal) : PyVal := PyVal.dict [("disj", PyVal.list items)]

/-- NotExists term constructor. -/
def NotExists (item : PyVal) : PyVal := PyVal.dict [("not_exists", item)]

/-- Unify term constructor. -/
def Unify (binding expr : PyVal) : PyVal :=
  PyVal.dict [("unify", binding), ("expr", expr)]

/-- Request body built by CozoDb.run of "cozopy/cozo.py" (identical in
"cozopy/cozo/__init__.py"): a dict mapping "q" to the query payload, with an
"out" entry added only when the out argument is not None (its default). -/
def CozoDb.runPayload (q out : PyVal) : PyVal :=
  PyVal.dict (
    [("q", q)] ++
    (match out with
     | PyVal.none => []
     | _ => [("out", out)]))

/-- CozoDb.run: serializes the payload, calls the inner engine entry point
run_query, and parses the response (serialization abstracted, see the file
header). -/
def CozoDb.run (run_query : PyVal → PyVal) (q out : PyVal) : PyVal :=
  run_query (CozoDb.runPayload q out)

/-- CozoDb.tx: wraps the payload as a dict under "tx" and hands it to the
inner engine entry point transact_triples. -/
def CozoDb.tx (transact_triples : PyVal → PyVal) (payload : PyVal) : PyVal :=
  transact_triples (PyVal.dict [("tx", payload)])

/-- CozoDb.tx_attr: wraps the payload as a dict under "attrs" and hands it to
the inner engine entry point transact_attributes. -/
def CozoDb.tx_attr (transact_attributes : PyVal → PyVal) (payload : PyVal) : PyVal :=
  transact_attributes (PyVal.dict [("attrs", payload)])

end cozo

namespace cozoInit

/-- Members of the Typing enum of "cozopy/cozo/__init__.py": here the member
on line 31 is "keyword". -/
def Typing : List (String × String) :=
  [("ref", "ref"), ("component", "component"), ("bool", "bool"), ("int", "int"),
   ("float", "float"), ("string", "string"), ("keyword", "keyword"), ("uuid", "uuid"),
   ("timestamp", "timestamp"), ("bytes", "bytes"), ("list", "list")]

/-- Attribute builder of "cozopy/cozo/__init__.py": the first parameter and
the first dict key are "keyword", not "name". -/
def Attribute (keyword typing id cardinality index history : PyVal) : PyVal :=
  PyVal.dict (
    [("keyword", keyword), ("type", typing), ("cardinality", cardinality),
     ("index", index), ("history", history)] ++
    (match id with
     | PyVal.none => []
     | _ => [("id", id)]))

/-- PutAttr of "cozopy/cozo/__init__.py". -/
def PutAttr (keyword typing id cardinality index history : PyVal) : PyVal :=
  PyVal.dict [("put", Attribute keyword typing id cardinality index history)]

/-- RetractAttr of "cozopy/cozo/__init__.py". -/
def RetractAttr (keyword typing id cardinality index history : PyVal) : PyVal :=
  PyVal.dict [("retract", Attribute keyword typing id cardinality index history)]

/-- PredicateClass of "cozopy/cozo/__init__.py"; its instance attribute is
"_pred_name".  Like the OpClass of "cozopy/cozo.py" it tags its result with
"op". -/
structure PredicateClass where
  _pred_name : Option String

/-- PredicateClass.__call__ of "cozopy/cozo/__init__.py": builds the mapping
tagged "op". -/
def PredicateClass.call (self : PredicateClass) (args : List PyVal) : Except String PyVal :=
  match self._pred_name with
  | Option.none => Except.error "you need to set the predicate name first"
  | some n => Except.ok (PyVal.dict [("op", PyVal.str n), ("args", PyVal.list args)])

/-- Module-level predicate builder instances of "cozopy/cozo/__init__.py". -/
def Gt : PredicateClass := ⟨some "Gt"⟩

def Lt : PredicateClass := ⟨some "Lt"⟩

def Ge : PredicateClass := ⟨some "Ge"⟩

def Le : PredicateClass := ⟨some "Le"⟩

def Eq : PredicateClass := ⟨some "Eq"⟩

def Neq : PredicateClass := ⟨some "Neq"⟩

def Add : PredicateClass := ⟨some "Add"⟩

def Sub : PredicateClass := ⟨some "Sub"⟩

def Mul : PredicateClass := ⟨some "Mul"⟩

def Div : PredicateClass := ⟨some "Div"⟩

def StrCat : PredicateClass := ⟨some "StrCat"⟩

end cozoInit

namespace cozoHelper

/-- PredicateClass of "python/cozo_helper.py"; unlike the other two modules it
tags its result with "pred", and only the six comparison builders exist. -/
structure PredicateClass where
  _pred_name : Option String

/-- PredicateClass.__call__ of "python/cozo_helper.py": builds the mapping
tagged "pred". -/
def PredicateClass.call (self : PredicateClass) (args : List PyVal) : Except String PyVal :=
  match self._pred_name with
  | Option.none => Except.error "you need to set the predicate name first"
  | some n => Except.ok (PyVal.dict [("pred", PyVal.str n), ("args", PyVal.list args)])

/-- Module-level predicate builder instances of "python/cozo_helper.py": only
Gt, Lt, Ge, Le, Eq, Neq are defined there. -/
def Gt : PredicateClass := ⟨some "Gt"⟩

def Lt : PredicateClass := ⟨some "Lt"⟩

def Ge : PredicateClass := ⟨some "Ge"⟩

def Le : PredicateClass := ⟨some "Le"⟩

def Eq : PredicateClass := ⟨some "Eq"⟩

def Neq : PredicateClass := ⟨some "Neq"⟩

end cozoHelper

namespace cozoTest

/-- CozoDb.run of "cozopy/cozo/test.py": takes the entire payload and passes
it to run_query unchanged (no "q" wrapping and no out parameter). -/
def CozoDb.run (run_query : PyVal → PyVal) (payload : PyVal) : PyVal :=
  run_query payload

/-- CozoDb.tx of "cozopy/cozo/test.py": passes the payload to transact_triples
unchanged (no "tx" wrapping). -/
def CozoDb.tx (transact_triples : PyVal → PyVal) (payload : PyVal) : PyVal :=
  transact_triples payload

/-- CozoDb.tx_attr of "cozopy/cozo/test.py": passes the payload to
transact_attributes unchanged (no "attrs" wrapping). -/
def CozoDb.tx_attr (transact_attributes : PyVal → PyVal) (payload : PyVal) : PyVal :=
  transact_attributes payload

end cozoTest

namespace TxModel

/-- Modelled from the spec: the TransactionProcessor behind
CozoDbPy.transact_triples is part of the native engine and is absent from the
Python sources; only its callers appear there.  Following sections 4.2, 7 and
8 of the spec, a transaction is an ordered list of put and retract operations,
validated against the attribute registry and committed as one atomic unit.
Entity specs are flattened here to attribute/scalar pairs with an optional
transaction-scoped temp id; scalar values carry their runtime type so that the
"ill-typed value for the declared type" error of section 7 is expressible. -/
inductive Val where
  | int : Int → Val
  | str : String → Val
  | bool : Bool → Val
deriving DecidableEq

/-- Declared value types of registry attributes. -/
inductive VType where
  | int : VType
  | str : VType
  | bool : VType
deriving DecidableEq

/-- Runtime type of a scalar value. -/
def Val.vtype : Val → VType
  | .int _ => VType.int
  | .str _ => VType.str
  | .bool _ => VType.bool

/-- Modelled from the spec: the AttributeRegistry, reduced to the mapping from
attribute name to declared value type that validation consults. -/
abbrev Registry := List (String × VType)

/-- Stored fact: entity id, attribute name, value. -/
structure Triple where
  entity : Nat
  attr : String
  value : Val
deriving DecidableEq

/-- Modelled from the spec: one transaction operation, either a put of an
entity spec (attribute/value pairs, with an optional temp id) or a retract of
one (entity, attribute, value) fact. -/
inductive TxOp where
  | put : List (String × Val) → Option String → TxOp
  | retract : Nat → String → Val → TxOp

/-- Validity of one operation against the registry: every attribute it touches
must be declared, with a value of the declared type (sections 4.1 and 7 of the
spec: unknown attribute, ill-typed value). -/
def opValid (registry : Registry) : TxOp → Bool
  | TxOp.put spec _ =>
      spec.all (fun p => decide (registry.lookup p.fst = some p.snd.vtype))
  | TxOp.retract _ a v =>
      decide (registry.lookup a = some v.vtype)

/-- Working state of one transaction: the next fresh entity id, the temp-id
resolution table, and the pending puts and retracts, none of which touches the
store before commit. -/
structure TxState where
  nextId : Nat
  temps : List (String × Nat)
  puts : List Triple
  retracts : List Triple

/-- Temp-id resolution (section 4.2, step 2 of the spec): a first-seen temp id
or an anonymous spec gets the next fresh id; a repeated temp id reuses the id
already assigned. -/
def resolveTemp (s : TxState) : Option String → Nat × TxState
  | Option.none => (s.nextId, { s with nextId := s.nextId + 1 })
  | some t =>
      match s.temps.lookup t with
      | some e => (e, s)
      | Option.none =>
          (s.nextId, { s with nextId := s.nextId + 1, temps := (t, s.nextId) :: s.temps })

/-- Processing of one operation: an invalid operation fails the whole
transaction; a valid put resolves its entity id and queues one pending triple
per attribute/value pair; a valid retract queues a pending retraction. -/
def processOp (registry : Registry) (s : TxState) (op : TxOp) : Except String TxState :=
  if opValid registry op then
    match op with
    | TxOp.put spec tempId =>
        let r := resolveTemp s tempId
        Except.ok { r.snd with
          puts := r.snd.puts ++ spec.map (fun p => ⟨r.fst, p.fst, p.snd⟩) }
    | TxOp.retract e a v =>
        Except.ok { s with retracts := s.retracts ++ [⟨e, a, v⟩] }
  else
    Except.error "TransactionError: invalid operation"

/-- Sequential processing of the operation list; the first failure aborts. -/
def processOps (registry : Registry) (s : TxState) : List TxOp → Except String TxState
  | [] => Except.ok s
  | op :: rest =>
      match processOp registry s op with
      | Except.error e => Except.error e
      | Except.ok s1 => processOps registry s1 rest

/-- Modelled from the spec: transact_triples validates and stages every
operation and only then commits the pending changes as one atomic unit
(section 4.2, step 6); on any failure no triple becomes visible. -/
def transact_triples (registry : Registry) (store : List Triple) (startId : Nat)
    (ops : List TxOp) : Except String (List Triple) :=
  match processOps registry ⟨startId, [], [], []⟩ ops with
  | Except.error e => Except.error e
  | Except.ok s =>
      Except.ok ((store.filter (fun t => decide (t ∉ s.retracts))) ++ s.puts)

/-- Visible store after submitting a transaction: the committed store on
success, the unchanged prior store when the transaction was rejected. -/
def storeAfter (registry : Registry) (store : List Triple) (startId : Nat)
    (ops : List TxOp) : List Triple :=
  match transact_triples registry store startId ops with
  | Except.ok s => s
  | Except.error _ => store

end TxModel

/-- Helper: the accumulator loop of String.intercalate agrees with a left fold
that appends a dot and the next name. -/
theorem foldl_dot_go (ns : List String) : ∀ a : String,
    ns.foldl (fun acc n => acc ++ "." ++ n) a = String.intercalate.go a "." ns := by
  induction ns with
  | nil => intro a; rfl
  | cons b ns ih =>
      intro a
      rw [List.foldl, String.intercalate.go, ← ih]

/-- Helper: String.intercalate on a non-empty list as a left fold. -/
theorem intercalate_dot (a : String) (ns : List String) :
    String.intercalate "." (a :: ns) = ns.foldl (fun acc n => acc ++ "." ++ n) a := by
  rw [String.intercalate, foldl_dot_go]

/-- Helper: a chain of attribute accesses starting from an instance that
already holds a name accumulates the dotted name by a left fold. -/
theorem getattrChain_from_some (ns : List String) : ∀ a : String,
    TripleClass.getattrChain ⟨some a⟩ ns
      = ⟨some (ns.foldl (fun acc n => acc ++ "." ++ n) a)⟩ := by
  induction ns with
  | nil => intro a; rfl
  | cons n ns ih => intro a; exact ih (a ++ "." ++ n)

/-- C3: for every non-empty chain of attribute accesses n1, ..., nk on the
triple builder T and every entity e and value v, calling the resulting
instance on (e, v) returns the bare 3-element array [e, "n1.n2.....nk", v],
the accessed names joined by dots forming the attribute name. -/
theorem triple_builder_chain (ns : List String) (h : ns ≠ []) (entity value : PyVal) :
    TripleClass.call (TripleClass.getattrChain T ns) entity value
      = Except.ok (PyVal.list [entity, PyVal.str (String.intercalate "." ns), value]) := by
  match ns, h with
  | n :: ns, _ =>
      have h1 : TripleClass.getattrChain T (n :: ns) = TripleClass.getattrChain ⟨some n⟩ ns := rfl
      rw [h1, getattrChain_from_some, intercalate_dot]
      rfl

/-- C3 witness: the chain T.person.friend applied to ("?a", "?b"). -/
theorem triple_builder_chain_witness :
    (["person", "friend"] ≠ ([] : List String))
    ∧ TripleClass.call (TripleClass.getattrChain T ["person", "friend"])
        (PyVal.str "?a") (PyVal.str "?b")
      = Except.ok (PyVal.list [PyVal.str "?a", PyVal.str "person.friend", PyVal.str "?b"]) :=
  ⟨by decide, triple_builder_chain ["person", "friend"] (by decide)
    (PyVal.str "?a") (PyVal.str "?b")⟩

/-- C1 counterexample: the CozoDb class of "cozopy/cozo/test.py" does not wrap
its payloads.  With the inner engine entry point taken as the identity, the
request passed onward by tx is the bare payload: it is not the claimed
wrapping {"tx": payload} and carries no "tx" key, and likewise tx_attr builds
no "attrs" key and run builds no "q" key. -/
theorem cozoTest_client_sends_payload_unwrapped :
    cozoTest.CozoDb.tx (fun p => p) (PyVal.dict [("put", PyVal.int 1)])
      = PyVal.dict [("put", PyVal.int 1)]
    ∧ PyVal.hasKey (cozoTest.CozoDb.tx (fun p => p) (PyVal.dict [("put", PyVal.int 1)])) "tx"
      = false
    ∧ PyVal.hasKey (cozoTest.CozoDb.tx_attr (fun p => p) (PyVal.dict [("put", PyVal.int 1)])) "attrs"
      = false
    ∧ PyVal.hasKey (cozoTest.CozoDb.run (fun p => p) (PyVal.dict [("put", PyVal.int 1)])) "q"
      = false := by
  refine ⟨rfl, ?_, ?_, ?_⟩ <;> decide

/-- C1 (amended): in "cozopy/cozo.py" and "cozopy/cozo/__init__.py", CozoDb.run
sends a request mapping "q" to the query payload with an "out" entry exactly
when the out argument is not None, CozoDb.tx wraps its payload as
{"tx": payload}, CozoDb.tx_attr wraps its payload as {"attrs": payload}, and
each method returns the (parsed) response of the corresponding inner call; in
"cozopy/cozo/test.py" the three CozoDb methods instead pass the caller-built
payload to the inner call unchanged, with no wrapping and no out parameter. -/
theorem client_request_shapes (rq tt ta : PyVal → PyVal) (q out payload attrs : PyVal) :
    cozo.CozoDb.run rq q out = rq (cozo.CozoDb.runPayload q out)
    ∧ PyVal.lookup (cozo.CozoDb.runPayload q out) "q" = some q
    ∧ (PyVal.hasKey (cozo.CozoDb.runPayload q out) "out" = true ↔ out ≠ PyVal.none)
    ∧ cozo.CozoDb.tx tt payload = tt (PyVal.dict [("tx", payload)])
    ∧ cozo.CozoDb.tx_attr ta attrs = ta (PyVal.dict [("attrs", attrs)])
    ∧ cozoTest.CozoDb.run rq payload = rq payload
    ∧ cozoTest.CozoDb.tx tt payload = tt payload
    ∧ cozoTest.CozoDb.tx_attr ta attrs = ta attrs := by
  refine ⟨rfl, ?_, ?_, rfl, rfl, rfl, rfl, rfl⟩
  · cases out <;> simp [cozo.CozoDb.runPayload, PyVal.lookup]
  · cases out <;> simp [cozo.CozoDb.runPayload, PyVal.hasKey]

/-- C2 counterexample: the Attribute builder of "cozopy/cozo/__init__.py" keys
the attribute name under "keyword", so at a concrete input the produced
mapping has no "name" field and its keys differ from the claimed five. -/
theorem attribute_keyword_key_counterexample :
    PyVal.keys (cozoInit.Attribute (PyVal.str "person.age") (PyVal.str "int") PyVal.none
        (PyVal.str "one") (PyVal.str "none") (PyVal.bool false))
      = ["keyword", "type", "cardinality", "index", "history"]
    ∧ PyVal.hasKey (cozoInit.Attribute (PyVal.str "person.age") (PyVal.str "int") PyVal.none
        (PyVal.str "one") (PyVal.str "none") (PyVal.bool false)) "name" = false
    ∧ PyVal.keys (cozoInit.Attribute (PyVal.str "person.age") (PyVal.str "int") PyVal.none
        (PyVal.str "one") (PyVal.str "none") (PyVal.bool false))
      ≠ ["name", "type", "cardinality", "index", "history"] := by
  refine ⟨rfl, ?_, ?_⟩ <;> decide

/-- C2 (amended): every attribute object produced by Attribute, PutAttr and
RetractAttr of "cozopy/cozo.py" is a mapping with exactly the fields "name",
"type", "cardinality", "index" and "history", plus "id" precisely when a
non-None id argument is supplied; in "cozopy/cozo/__init__.py" the builders
behave identically except that the first field is keyed "keyword" instead of
"name". -/
theorem attribute_builder_fields (name typing id cardinality index history : PyVal) :
    PyVal.keys (cozo.Attribute name typing id cardinality index history)
      = ["name", "type", "cardinality", "index", "history"] ++
        (match id with | PyVal.none => [] | _ => ["id"])
    ∧ cozo.PutAttr name typing id cardinality index history
      = PyVal.dict [("put", cozo.Attribute name typing id cardinality index history)]
    ∧ cozo.RetractAttr name typing id cardinality index history
      = PyVal.dict [("retract", cozo.Attribute name typing id cardinality index history)]
    ∧ PyVal.keys (cozoInit.Attribute name typing id cardinality index history)
      = ["keyword", "type", "cardinality", "index", "history"] ++
        (match id with | PyVal.none => [] | _ => ["id"])
    ∧ cozoInit.PutAttr name typing id cardinality index history
      = PyVal.dict [("put", cozoInit.Attribute name typing id cardinality index history)]
    ∧ cozoInit.RetractAttr name typing id cardinality index history
      = PyVal.dict [("retract", cozoInit.Attribute name typing id cardinality index history)] := by
  refine ⟨?_, rfl, rfl, ?_, rfl, rfl⟩ <;> cases id <;> rfl

/-- C4 counterexample: supplying the falsy timestamp 0 via the "at" closure
leaves the built rule mapping without any "at" field, against the claim that
"at" is present whenever a timestamp was supplied.  The first conjunct shows
that accessing "at" on Q does reach the closure. -/
theorem rule_at_falsy_dropped_counterexample :
    RuleClass.getattr Q "at" = RuleGetattr.atClosure
    ∧ RuleClass.call (RuleClass.atCall Q (PyVal.int 0)) [PyVal.str "?a"]
      = Except.ok (PyVal.dict [("rule", PyVal.str "?"), ("args", PyVal.list [PyVal.str "?a"])])
    ∧ PyVal.hasKey
        (PyVal.dict [("rule", PyVal.str "?"), ("args", PyVal.list [PyVal.str "?a"])]) "at"
      = false := by
  exact ⟨rfl, rfl, by decide⟩

/-- C4 (amended): for a rule builder with its name set (a single attribute
access on R, or the Q builder with reserved name "?"), calling it returns a
mapping with "rule" = the name and "args" = the argument list, plus "at" = t
when a truthy timestamp t was supplied via the "at" closure beforehand; no
"at" field appears when "at" was never invoked (or the supplied timestamp is
falsy, see the C10 theorem). -/
theorem rule_builder_shape (n : String) (t : PyVal) (args : List PyVal) :
    RuleClass.getattr R n = RuleGetattr.new ⟨some n, PyVal.none⟩
    ∧ RuleClass.call ⟨some n, PyVal.none⟩ args
      = Except.ok (PyVal.dict [("rule", PyVal.str n), ("args", PyVal.list args)])
    ∧ RuleClass.getattr ⟨some n, PyVal.none⟩ "at" = RuleGetattr.atClosure
    ∧ (PyVal.truthy t = true →
        RuleClass.call (RuleClass.atCall ⟨some n, PyVal.none⟩ t) args
          = Except.ok (PyVal.dict
              [("rule", PyVal.str n), ("args", PyVal.list args), ("at", t)]))
    ∧ RuleClass.call Q args
      = Except.ok (PyVal.dict [("rule", PyVal.str "?"), ("args", PyVal.list args)])
    ∧ (PyVal.truthy t = true →
        RuleClass.call (RuleClass.atCall Q t) args
          = Except.ok (PyVal.dict
              [("rule", PyVal.str "?"), ("args", PyVal.list args), ("at", t)])) := by
  refine ⟨rfl, rfl, rfl, ?_, rfl, ?_⟩ <;>
    intro ht <;> simp [RuleClass.call, RuleClass.atCall, Q, ht]

/-- C4 witness: the truthy timestamp "1990-01-01" supplied to Q.at produces
the rule mapping carrying the "at" entry. -/
theorem rule_builder_shape_witness :
    PyVal.truthy (PyVal.str "1990-01-01") = true
    ∧ RuleClass.call (RuleClass.atCall Q (PyVal.str "1990-01-01")) [PyVal.str "?a"]
      = Except.ok (PyVal.dict [("rule", PyVal.str "?"),
          ("args", PyVal.list [PyVal.str "?a"]), ("at", PyVal.str "1990-01-01")]) :=
  ⟨by decide,
    (rule_builder_shape "x" (PyVal.str "1990-01-01") [PyVal.str "?a"]).2.2.2.2.2 (by decide)⟩

/-- C5 counterexample: the Gt builder of "python/cozo_helper.py" tags its
result "pred", not "op": at a concrete argument list the produced mapping has
keys "pred" and "args" and no "op" key. -/
theorem helper_pred_tag_counterexample :
    cozoHelper.PredicateClass.call cozoHelper.Gt [PyVal.str "?age", PyVal.str "?anne_age"]
      = Except.ok (PyVal.dict [("pred", PyVal.str "Gt"),
          ("args", PyVal.list [PyVal.str "?age", PyVal.str "?anne_age"])])
    ∧ PyVal.keys (PyVal.dict [("pred", PyVal.str "Gt"),
          ("args", PyVal.list [PyVal.str "?age", PyVal.str "?anne_age"])])
      = ["pred", "args"]
    ∧ PyVal.hasKey (PyVal.dict [("pred", PyVal.str "Gt"),
          ("args", PyVal.list [PyVal.str "?age", PyVal.str "?anne_age"])]) "op"
      = false := by
  exact ⟨rfl, by decide, by decide⟩

/-- C5 (amended): in "cozopy/cozo.py" and "cozopy/cozo/__init__.py" each of
the eleven operation builders Gt, Lt, Ge, Le, Eq, Neq, Add, Sub, Mul, Div,
StrCat applied to arguments returns the mapping tagged "op":
{"op": name, "args": args}; "python/cozo_helper.py" defines only the six
comparison builders Gt, Lt, Ge, Le, Eq, Neq, and those return the mapping
tagged "pred" instead. -/
theorem op_builder_shapes (n : String) (args : List PyVal) :
    cozo.OpClass.call ⟨some n⟩ args
      = Except.ok (PyVal.dict [("op", PyVal.str n), ("args", PyVal.list args)])
    ∧ cozoInit.PredicateClass.call ⟨some n⟩ args
      = Except.ok (PyVal.dict [("op", PyVal.str n), ("args", PyVal.list args)])
    ∧ cozoHelper.PredicateClass.call ⟨some n⟩ args
      = Except.ok (PyVal.dict [("pred", PyVal.str n), ("args", PyVal.list args)])
    ∧ [cozo.Gt, cozo.Lt, cozo.Ge, cozo.Le, cozo.Eq, cozo.Neq, cozo.Add, cozo.Sub,
       cozo.Mul, cozo.Div, cozo.StrCat]
      = [⟨some "Gt"⟩, ⟨some "Lt"⟩, ⟨some "Ge"⟩, ⟨some "Le"⟩, ⟨some "Eq"⟩, ⟨some "Neq"⟩,
         ⟨some "Add"⟩, ⟨some "Sub"⟩, ⟨some "Mul"⟩, ⟨some "Div"⟩, ⟨some "StrCat"⟩]
    ∧ [cozoInit.Gt, cozoInit.Lt, cozoInit.Ge, cozoInit.Le, cozoInit.Eq, cozoInit.Neq,
       cozoInit.Add, cozoInit.Sub, cozoInit.Mul, cozoInit.Div, cozoInit.StrCat]
      = [⟨some "Gt"⟩, ⟨some "Lt"⟩, ⟨some "Ge"⟩, ⟨some "Le"⟩, ⟨some "Eq"⟩, ⟨some "Neq"⟩,
         ⟨some "Add"⟩, ⟨some "Sub"⟩, ⟨some "Mul"⟩, ⟨some "Div"⟩, ⟨some "StrCat"⟩]
    ∧ [cozoHelper.Gt, cozoHelper.Lt, cozoHelper.Ge, cozoHelper.Le, cozoHelper.Eq,
       cozoHelper.Neq]
      = [⟨some "Gt"⟩, ⟨some "Lt"⟩, ⟨some "Ge"⟩, ⟨some "Le"⟩, ⟨some "Eq"⟩, ⟨some "Neq"⟩] :=
  ⟨rfl, rfl, rfl, rfl, rfl, rfl⟩

/-- C6 counterexample: the Typing enum of "cozopy/cozo.py" has a member "name"
where the claim lists "keyword"; its member list differs from the claimed
eleven and contains no "keyword" member. -/
theorem typing_name_member_counterexample :
    cozo.Typing.map Prod.fst
      = ["ref", "component", "bool", "int", "float", "string", "name", "uuid",
         "timestamp", "bytes", "list"]
    ∧ cozo.Typing.map Prod.fst
      ≠ ["ref", "component", "bool", "int", "float", "string", "keyword", "uuid",
         "timestamp", "bytes", "list"]
    ∧ ("keyword", "keyword") ∉ cozo.Typing := by
  refine ⟨rfl, ?_, ?_⟩ <;> decide

/-- C6 (amended): the Typing enum of "cozopy/cozo/__init__.py" consists of
exactly the eleven members ref, component, bool, int, float, string, keyword,
uuid, timestamp, bytes, list, each valued by its own name; in "cozopy/cozo.py"
the member keyword is replaced by a member "name" (also self-valued), the
other ten being identical. -/
theorem typing_enum_members :
    cozoInit.Typing.map Prod.fst
      = ["ref", "component", "bool", "int", "float", "string", "keyword", "uuid",
         "timestamp", "bytes", "list"]
    ∧ (∀ m ∈ cozoInit.Typing, m.snd = m.fst)
    ∧ cozo.Typing.map Prod.fst
      = ["ref", "component", "bool", "int", "float", "string", "name", "uuid",
         "timestamp", "bytes", "list"]
    ∧ (∀ m ∈ cozo.Typing, m.snd = m.fst)
    ∧ cozo.Typing.filter (fun m => m.fst != "name")
      = cozoInit.Typing.filter (fun m => m.fst != "keyword") := by
  refine ⟨rfl, ?_, rfl, ?_, ?_⟩ <;> decide

/-- C7: the remaining term constructors of "cozopy/cozo.py" (the same
definitions appear in "cozopy/cozo/__init__.py") produce mappings carrying
exactly the term tags of the spec: Const v = {"const": v}, Conj ts =
{"conj": ts}, Disj ts = {"disj": ts}, NotExists t = {"not_exists": t},
Unify b e = {"unify": b, "expr": e}, and the aggregate builders Count, Min,
Max applied to a symbol s yield {"aggr": name, "symb": s}. -/
theorem term_constructor_tags (v t b e s : PyVal) (ts : List PyVal) :
    cozo.Const v = PyVal.dict [("const", v)]
    ∧ cozo.Conj ts = PyVal.dict [("conj", PyVal.list ts)]
    ∧ cozo.Disj ts = PyVal.dict [("disj", PyVal.list ts)]
    ∧ cozo.NotExists t = PyVal.dict [("not_exists", t)]
    ∧ cozo.Unify b e = PyVal.dict [("unify", b), ("expr", e)]
    ∧ cozo.AggrClass.call cozo.Count s
      = Except.ok (PyVal.dict [("aggr", PyVal.str "Count"), ("symb", s)])
    ∧ cozo.AggrClass.call cozo.Min s
      = Except.ok (PyVal.dict [("aggr", PyVal.str "Min"), ("symb", s)])
    ∧ cozo.AggrClass.call cozo.Max s
      = Except.ok (PyVal.dict [("aggr", PyVal.str "Max"), ("symb", s)]) :=
  ⟨rfl, rfl, rfl, rfl, rfl, rfl, rfl, rfl⟩

/-- Helper: processing a list of operations that contains an invalid one fails
no matter the working state reached so far. -/
theorem processOps_error_of_invalid (registry : TxModel.Registry) :
    ∀ (ops : List TxModel.TxOp) (s : TxModel.TxState),
      (∃ op ∈ ops, TxModel.opValid registry op = false) →
      ∃ msg, TxModel.processOps registry s ops = Except.error msg := by
  intro ops
  induction ops with
  | nil =>
      intro s h
      rcases h with ⟨op, hmem, _⟩
      cases hmem
  | cons op rest ih =>
      intro s h
      rcases h with ⟨o, hmem, hval⟩
      rcases List.mem_cons.mp hmem with h1 | h1
      · subst h1
        refine ⟨"TransactionError: invalid operation", ?_⟩
        rw [TxModel.processOps]
        simp [TxModel.processOp, hval]
      · rw [TxModel.processOps]
        cases hop : TxModel.processOp registry s op with
        | error e => exact ⟨e, rfl⟩
        | ok s1 => exact ih s1 ⟨o, h1, hval⟩

/-- Helper: processing a list of valid operations never fails. -/
theorem processOps_ok_of_valid (registry : TxModel.Registry) :
    ∀ (ops : List TxModel.TxOp) (s : TxModel.TxState),
      (∀ op ∈ ops, TxModel.opValid registry op = true) →
      ∃ s1, TxModel.processOps registry s ops = Except.ok s1 := by
  intro ops
  induction ops with
  | nil => intro s _; exact ⟨s, rfl⟩
  | cons op rest ih =>
      intro s h
      have hop : TxModel.opValid registry op = true := h op (List.mem_cons_self op rest)
      rw [TxModel.processOps]
      cases op with
      | put spec tempId =>
          simp only [TxModel.processOp, hop, if_true]
          exact ih _ (fun o ho => h o (List.mem_cons_of_mem _ ho))
      | retract e a v =>
          simp only [TxModel.processOp, hop, if_true]
          exact ih _ (fun o ho => h o (List.mem_cons_of_mem _ ho))

/-- C8 (spec-modelled): a transaction submitted through transact_triples that
contains an invalid operation takes effect atomically in the all-or-nothing
sense: the whole transaction is rejected with an error and the visible store
afterward is exactly the prior store, so no triple from that transaction is
visible. -/
theorem transact_triples_atomic (registry : TxModel.Registry)
    (store : List TxModel.Triple) (startId : Nat) (ops : List TxModel.TxOp)
    (h : ∃ op ∈ ops, TxModel.opValid registry op = false) :
    (∃ msg, TxModel.transact_triples registry store startId ops = Except.error msg)
    ∧ TxModel.storeAfter registry store startId ops = store := by
  obtain ⟨msg, hmsg⟩ :=
    processOps_error_of_invalid registry ops ⟨startId, [], [], []⟩ h
  constructor
  · refine ⟨msg, ?_⟩
    simp only [TxModel.transact_triples]
    rw [hmsg]
  · simp only [TxModel.storeAfter, TxModel.transact_triples]
    rw [hmsg]

/-- C8 witness: a transaction whose put touches the undeclared attribute
"person.unknown" is rejected and leaves the prior single-triple store
untouched. -/
theorem transact_triples_atomic_witness :
    (∃ op ∈ [TxModel.TxOp.put [("person.unknown", TxModel.Val.int 1)] (some "alice")],
       TxModel.opValid [("person.age", TxModel.VType.int)] op = false)
    ∧ (∃ msg, TxModel.transact_triples [("person.age", TxModel.VType.int)]
         [⟨0, "person.age", TxModel.Val.int 7⟩] 1
         [TxModel.TxOp.put [("person.unknown", TxModel.Val.int 1)] (some "alice")]
       = Except.error msg)
    ∧ TxModel.storeAfter [("person.age", TxModel.VType.int)]
        [⟨0, "person.age", TxModel.Val.int 7⟩] 1
        [TxModel.TxOp.put [("person.unknown", TxModel.Val.int 1)] (some "alice")]
      = [⟨0, "person.age", TxModel.Val.int 7⟩] := by
  have h : ∃ op ∈ [TxModel.TxOp.put [("person.unknown", TxModel.Val.int 1)] (some "alice")],
      TxModel.opValid [("person.age", TxModel.VType.int)] op = false :=
    ⟨TxModel.TxOp.put [("person.unknown", TxModel.Val.int 1)] (some "alice"),
      List.mem_cons_self _ _, by decide⟩
  have ha := transact_triples_atomic [("person.age", TxModel.VType.int)]
    [⟨0, "person.age", TxModel.Val.int 7⟩] 1
    [TxModel.TxOp.put [("person.unknown", TxModel.Val.int 1)] (some "alice")] h
  exact ⟨h, ha.1, ha.2⟩

/-- Helper: a sequence of plain calls on the shared Q instance leaves its
state unchanged, because "__call__" never writes an instance attribute. -/
theorem applyOps_calls_only (self : RuleClass) :
    ∀ ops : List QOp, (∀ op ∈ ops, QOp.isCall op = true) →
      RuleClass.applyOps self ops = self := by
  intro ops
  induction ops generalizing self with
  | nil => intro _; rfl
  | cons op rest ih =>
      intro h
      cases op with
      | atOp t =>
          have := h (QOp.atOp t) (List.mem_cons_self _ _)
          simp [QOp.isCall] at this
      | callOp args =>
          exact ih self (fun o ho => h o (List.mem_cons_of_mem _ ho))

/-- C9: the module-level rule builders are shared mutable instances whose
stored timestamp is never cleared: for every truthy timestamp t, after the
"at" closure of Q runs once, any later sequence of plain calls on the same Q
object leaves the stored timestamp in place, and every one of those calls
(here the last of the sequence, on arbitrary arguments) returns a mapping
still carrying "at": t. -/
theorem q_at_timestamp_persists (t : PyVal) (ht : PyVal.truthy t = true)
    (ops : List QOp) (hops : ∀ op ∈ ops, QOp.isCall op = true) (args : List PyVal) :
    RuleClass.applyOps (RuleClass.atCall Q t) ops = RuleClass.atCall Q t
    ∧ RuleClass.call (RuleClass.applyOps (RuleClass.atCall Q t) ops) args
      = Except.ok (PyVal.dict
          [("rule", PyVal.str "?"), ("args", PyVal.list args), ("at", t)])
    ∧ PyVal.lookup (PyVal.dict
          [("rule", PyVal.str "?"), ("args", PyVal.list args), ("at", t)]) "at"
      = some t := by
  have h1 := applyOps_calls_only (RuleClass.atCall Q t) ops hops
  refine ⟨h1, ?_, ?_⟩
  · rw [h1]
    simp [RuleClass.call, RuleClass.atCall, Q, ht]
  · simp [PyVal.lookup]

/-- C9 witness: after Q.at("1990-01-01"), two unrelated rule constructions
later the built mapping still carries the timestamp. -/
theorem q_at_timestamp_persists_witness :
    PyVal.truthy (PyVal.str "1990-01-01") = true
    ∧ (∀ op ∈ [QOp.callOp [PyVal.str "?x"], QOp.callOp ([] : List PyVal)],
        QOp.isCall op = true)
    ∧ RuleClass.call
        (RuleClass.applyOps (RuleClass.atCall Q (PyVal.str "1990-01-01"))
          [QOp.callOp [PyVal.str "?x"], QOp.callOp ([] : List PyVal)])
        [PyVal.str "?a"]
      = Except.ok (PyVal.dict [("rule", PyVal.str "?"),
          ("args", PyVal.list [PyVal.str "?a"]), ("at", PyVal.str "1990-01-01")]) := by
  have hops : ∀ op ∈ [QOp.callOp [PyVal.str "?x"], QOp.callOp ([] : List PyVal)],
      QOp.isCall op = true := by
    intro op hop
    rcases List.mem_cons.mp hop with h1 | h1
    · subst h1; rfl
    · rcases List.mem_cons.mp h1 with h2 | h2
      · subst h2; rfl
      · cases h2
  exact ⟨by decide, hops,
    (q_at_timestamp_persists (PyVal.str "1990-01-01") (by decide)
      [QOp.callOp [PyVal.str "?x"], QOp.callOp ([] : List PyVal)] hops
      [PyVal.str "?a"]).2.1⟩

/-- C10: RuleClass includes the "at" field by testing the stored timestamp for
truthiness: a rule built after the "at" closure ran with timestamp t carries
the "at" key exactly when t is truthy (with value t), and the falsy values 0,
False and the empty string therefore suppress the field even though a
timestamp was explicitly supplied. -/
theorem rule_at_truthiness (n : String) (t : PyVal) (args : List PyVal) :
    RuleClass.call (RuleClass.atCall ⟨some n, PyVal.none⟩ t) args
      = Except.ok (PyVal.dict (
          [("rule", PyVal.str n), ("args", PyVal.list args)] ++
          (if PyVal.truthy t then [("at", t)] else [])))
    ∧ PyVal.hasKey (PyVal.dict (
          [("rule", PyVal.str n), ("args", PyVal.list args)] ++
          (if PyVal.truthy t then [("at", t)] else []))) "at"
      = PyVal.truthy t
    ∧ PyVal.truthy (PyVal.int 0) = false
    ∧ PyVal.truthy (PyVal.bool false) = false
    ∧ PyVal.truthy (PyVal.str "") = false
    ∧ PyVal.truthy (PyVal.str "1990-01-01") = true := by
  refine ⟨rfl, ?_, by decide, by decide, by decide, by decide⟩
  cases htr : PyVal.truthy t <;> simp [PyVal.hasKey]
